import Mathlib

/-
  Shallow embedding of `src/models/Nas.js` (Synology NAS Download Station client).

  The JS class `Nas` holds a parsed URL (`this._url`) and a session token
  (`this._sid`).  Each operation builds an axios request config (baseURL, url
  path, params) and settles the returned promise with a `.then` handler and a
  `.catch` handler.  We embed:
    * `JVal`       - JS values appearing in params and JSON response bodies;
    * `jsGet`      - JS property access `base[k]`, throwing on null/undefined;
    * `JsUrl`      - the parsed URL record with host/protocol/origin projections;
    * `parseURL`   - the WHATWG-style parse performed by `new URL(s)`,
                     restricted to the scheme://host:port shapes this client uses
                     (`none` models the TypeError thrown on malformed input);
    * `Nas`        - the instance state (`_url`, `_sid`);
    * per operation: `<op>.config` (the literal `const config = {...}`),
      `<op>.onThen` (the `.then` handler, `Except` models a thrown TypeError),
      `<op>.resolve` (promise settlement: `.catch` turns a throw or a transport
      rejection into a resolved `undefined`), and `<op>.run` (composition with a
      transport oracle mapping the built config to an outcome).
-/

/-- JS values: strings, numbers (the client only uses integers), booleans,
arrays, objects (ordered field lists), null and undefined. -/
inductive JVal where
  | str : String → JVal
  | num : Int → JVal
  | bool : Bool → JVal
  | arr : List JVal → JVal
  | obj : List (String × JVal) → JVal
  | null : JVal
  | undefined : JVal

/-- JS truthiness: empty string, 0, false, null and undefined are falsy. -/
def JVal.truthy : JVal → Bool
  | .str s => s != ""
  | .num n => n != 0
  | .bool b => b
  | .arr _ => true
  | .obj _ => true
  | .null => false
  | .undefined => false

/-- JS property access `base[k]`: throws a TypeError when the base is null or
undefined; yields the field value on objects (undefined when absent); yields
undefined on other primitives. -/
def jsGet (base : JVal) (k : String) : Except String JVal :=
  match base with
  | .null => .error "TypeError"
  | .undefined => .error "TypeError"
  | .obj fields => .ok ((fields.lookup k).getD .undefined)
  | _ => .ok .undefined

/-- Non-throwing variant of `jsGet`: undefined where `jsGet` would throw. -/
def jsGetD (base : JVal) (k : String) : JVal :=
  match jsGet base k with
  | .ok v => v
  | .error _ => .undefined

/-- The components of a parsed URL kept by `new URL`: scheme (without the
trailing colon), hostname, and port (empty string when absent). -/
structure JsUrl where
  scheme : String
  hostname : String
  port : String
  deriving DecidableEq

/-- The `url.protocol`: the scheme with a trailing colon. -/
def JsUrl.protocol (u : JsUrl) : String := u.scheme ++ ":"

/-- The `url.host`: hostname, with `:port` appended when a port is present. -/
def JsUrl.host (u : JsUrl) : String :=
  if u.port = "" then u.hostname else u.hostname ++ ":" ++ u.port

/-- The `url.origin`: protocol plus `//` plus host. -/
def JsUrl.origin (u : JsUrl) : String := u.protocol ++ "//" ++ u.host

/-- Split a character list at the first occurrence of `://`, returning the
characters before it and after it; `none` when `://` does not occur. -/
def breakOnSchemeSep : List Char → Option (List Char × List Char)
  | [] => none
  | ':' :: '/' :: '/' :: rest => some ([], rest)
  | c :: rest =>
    match breakOnSchemeSep rest with
    | some (pre, post) => some (c :: pre, post)
    | none => none

/-- The `new URL(s)` for the absolute `scheme://host[:port][/...]` strings this
client deals in: requires a nonempty scheme before `://`, a nonempty host, and,
when a port is given, a nonempty all-digit port.  `none` models the TypeError
(Invalid URL) that `new URL` throws on malformed input. -/
def parseURL (s : String) : Option JsUrl :=
  match breakOnSchemeSep s.toList with
  | none => none
  | some (schemeCs, restCs) =>
    if schemeCs.isEmpty then none
    else
      let hostport := restCs.takeWhile (fun c => c != '/')
      let h := hostport.takeWhile (fun c => c != ':')
      match hostport.drop h.length with
      | [] => if h.isEmpty then none else some ⟨String.mk schemeCs, String.mk h, ""⟩
      | _ :: p =>
        if h.isEmpty then none
        else if !p.isEmpty && p.all Char.isDigit then
          some ⟨String.mk schemeCs, String.mk h, String.mk p⟩
        else none

/-- The value passed to the `Nas` constructor: a URL instance, a string, or
anything else (covering the no-argument call, where `url` is undefined). -/
inductive CtorArg where
  | urlObj : JsUrl → CtorArg
  | str : String → CtorArg
  | other : CtorArg

/-- The instance state of the `Nas` class: `this._url` and `this._sid`.
`_sid` is a `JVal` because `login` stores whatever `response.data.data.sid`
holds; the constructor initialises it to the empty string. -/
structure Nas where
  _url : JsUrl
  _sid : JVal

/-- The constructor: a URL instance is stored as-is; a string is parsed by
`new URL` (which throws on malformed input, modelled by `Except.error`);
anything else falls back to `new URL("https://localhost:5001")`.  In every
non-throwing case `_sid` is initialised to `""`. -/
def Nas.construct : CtorArg → Except String Nas
  | .urlObj u => .ok ⟨u, .str ""⟩
  | .str s =>
    match parseURL s with
    | some u => .ok ⟨u, .str ""⟩
    | none => .error "Invalid URL"
  | .other =>
    match parseURL "https://localhost:5001" with
    | some u => .ok ⟨u, .str ""⟩
    | none => .error "Invalid URL"

/-- The `get host()`. -/
def Nas.host (n : Nas) : String := n._url.host

/-- The `get portocol()` (the getter name is spelled this way in the source). -/
def Nas.portocol (n : Nas) : String := n._url.protocol

/-- The `get hostname()`. -/
def Nas.hostname (n : Nas) : String := n._url.hostname

/-- The `get port()`. -/
def Nas.port (n : Nas) : String := n._url.port

/-- An axios response as the handlers consume it: HTTP status and parsed body. -/
structure Response where
  status : Nat
  data : JVal

/-- Settlement of the transport promise: fulfilled with a response, or
rejected (network/TLS failure). -/
inductive Outcome where
  | fulfilled : Response → Outcome
  | rejected : Outcome

/-- The request configuration each operation hands to `axios.request`:
base URL, path, and the ordered parameter list.  (The `httpsAgent` field only
disables TLS certificate validation and carries no request data.) -/
structure Config where
  baseURL : String
  url : String
  params : List (String × JVal)

/-- A transport oracle: how the network settles a given request. -/
def Transport : Type := Config → Outcome

/-- Settle the promise `axios.request(config).then(onThen).catch(onCatch)`:
a fulfilled response runs the then-handler; a throw inside it, or a transport
rejection, reaches the catch-handler, which logs and returns undefined, leaving
the instance state as it was. -/
def runOp (self : Nas) (onThen : Response → Except String (JVal × Nas)) :
    Outcome → JVal × Nas
  | .fulfilled r =>
    match onThen r with
    | .ok v => v
    | .error _ => (.undefined, self)
  | .rejected => (.undefined, self)

/-- The `info()`: request config (fixed discovery query, no session parameter). -/
def Nas.info.config (self : Nas) : Config :=
  { baseURL := self._url.origin
    url := "/webapi/query.cgi"
    params := [("api", .str "SYNO.API.Info"), ("version", .num 1),
               ("method", .str "query"), ("query", .str "all")] }

/-- The `info()`: the `.then` handler — on 200 and a truthy success flag return
`response.data.data`; on envelope failure log `response.data.error.code`
(whose evaluation throws when `error` is absent); on non-200 log the status. -/
def Nas.info.onThen (self : Nas) (r : Response) : Except String (JVal × Nas) :=
  if r.status = 200 then
    match jsGet r.data "success" with
    | .error e => .error e
    | .ok succ =>
      if succ.truthy then
        match jsGet r.data "data" with
        | .error e => .error e
        | .ok d => .ok (d, self)
      else
        match jsGet r.data "error" with
        | .error e => .error e
        | .ok ev =>
          match jsGet ev "code" with
          | .error e => .error e
          | .ok _ => .ok (.undefined, self)
  else .ok (.undefined, self)

/-- The `info()`: promise settlement. -/
def Nas.info.resolve (self : Nas) (out : Outcome) : JVal × Nas :=
  runOp self (Nas.info.onThen self) out

/-- The `info()` end to end against a transport oracle. -/
def Nas.info.run (self : Nas) (t : Transport) : JVal × Nas :=
  Nas.info.resolve self (t (Nas.info.config self))

/-- The `login(nas_username, nas_password)`: request config. -/
def Nas.login.config (self : Nas) (nas_username nas_password : String) : Config :=
  { baseURL := self._url.origin
    url := "/webapi/auth.cgi"
    params := [("api", .str "SYNO.API.Auth"), ("version", .num 6),
               ("session", .str "DownloadStation"), ("format", .str "sid"),
               ("method", .str "login"), ("account", .str nas_username),
               ("passwd", .str nas_password)] }

/-- The `login`: the `.then` handler — on 200 and a truthy success flag, store
`response.data.data.sid` into `self._sid` and return `true`; on envelope
failure the switch evaluates `response.data.error.code` (throwing when `error`
is absent) and only logs; on non-200 log the status.  Every branch other than
the success branch leaves the instance unchanged. -/
def Nas.login.onThen (self : Nas) (r : Response) : Except String (JVal × Nas) :=
  if r.status = 200 then
    match jsGet r.data "success" with
    | .error e => .error e
    | .ok succ =>
      if succ.truthy then
        match jsGet r.data "data" with
        | .error e => .error e
        | .ok d =>
          match jsGet d "sid" with
          | .error e => .error e
          | .ok sid => .ok (.bool true, { self with _sid := sid })
      else
        match jsGet r.data "error" with
        | .error e => .error e
        | .ok ev =>
          match jsGet ev "code" with
          | .error e => .error e
          | .ok _ => .ok (.undefined, self)
  else .ok (.undefined, self)

/-- The `login`: promise settlement. -/
def Nas.login.resolve (self : Nas) (out : Outcome) : JVal × Nas :=
  runOp self (Nas.login.onThen self) out

/-- The `login` end to end against a transport oracle. -/
def Nas.login.run (self : Nas) (nas_username nas_password : String)
    (t : Transport) : JVal × Nas :=
  Nas.login.resolve self (t (Nas.login.config self nas_username nas_password))

/-- The `logout()`: request config — note: no `_sid` parameter. -/
def Nas.logout.config (self : Nas) : Config :=
  { baseURL := self._url.origin
    url := "/webapi/auth.cgi"
    params := [("api", .str "SYNO.API.Auth"), ("version", .num 1),
               ("session", .str "DownloadStation"), ("method", .str "logout")] }

/-- The `logout`: the `.then` handler — on 200 return `response.data.success`
(whatever value it is); otherwise fall through to undefined.  The stored
`_sid` is never touched. -/
def Nas.logout.onThen (self : Nas) (r : Response) : Except String (JVal × Nas) :=
  if r.status = 200 then
    match jsGet r.data "success" with
    | .error e => .error e
    | .ok s => .ok (s, self)
  else .ok (.undefined, self)

/-- The `logout`: promise settlement. -/
def Nas.logout.resolve (self : Nas) (out : Outcome) : JVal × Nas :=
  runOp self (Nas.logout.onThen self) out

/-- The `logout` end to end against a transport oracle. -/
def Nas.logout.run (self : Nas) (t : Transport) : JVal × Nas :=
  Nas.logout.resolve self (t (Nas.logout.config self))

/-- The `getTaskList(offset = 0, limit = -1, additional = "")`: request config.
The source places only `_sid`, `api`, `version`, `method` and `additional`
into `params`; `offset` and `limit` appear nowhere in it. -/
def Nas.getTaskList.config (self : Nas) (offset limit : Int)
    (additional : String) : Config :=
  { baseURL := self._url.origin
    url := "/webapi/DownloadStation/task.cgi"
    params := [("_sid", self._sid), ("api", .str "SYNO.DownloadStation.Task"),
               ("version", .num 1), ("method", .str "list"),
               ("additional", .str additional)] }

/-- The `getTaskList`: the `.then` handler — on 200 and a truthy success flag
return `response.data.data.tasks`; on envelope failure fall through to
undefined; on non-200 log the status. -/
def Nas.getTaskList.onThen (self : Nas) (r : Response) :
    Except String (JVal × Nas) :=
  if r.status = 200 then
    match jsGet r.data "success" with
    | .error e => .error e
    | .ok succ =>
      if succ.truthy then
        match jsGet r.data "data" with
        | .error e => .error e
        | .ok d =>
          match jsGet d "tasks" with
          | .error e => .error e
          | .ok tasks => .ok (tasks, self)
      else .ok (.undefined, self)
  else .ok (.undefined, self)

/-- The `getTaskList`: promise settlement. -/
def Nas.getTaskList.resolve (self : Nas) (out : Outcome) : JVal × Nas :=
  runOp self (Nas.getTaskList.onThen self) out

/-- The `getTaskList` end to end against a transport oracle. -/
def Nas.getTaskList.run (self : Nas) (offset limit : Int) (additional : String)
    (t : Transport) : JVal × Nas :=
  Nas.getTaskList.resolve self (t (Nas.getTaskList.config self offset limit additional))

/-- The `getTaskInfo(id, additional = "")`: request config. -/
def Nas.getTaskInfo.config (self : Nas) (id : String) (additional : String) :
    Config :=
  { baseURL := self._url.origin
    url := "/webapi/DownloadStation/task.cgi"
    params := [("_sid", self._sid), ("api", .str "SYNO.DownloadStation.Task"),
               ("version", .num 1), ("method", .str "getinfo"),
               ("id", .str id), ("additional", .str additional)] }

/-- The `getTaskInfo`: the `.then` handler — on 200 and a truthy success flag
return the whole `response.data` envelope; on envelope failure fall through to
undefined; on non-200 log the status. -/
def Nas.getTaskInfo.onThen (self : Nas) (r : Response) :
    Except String (JVal × Nas) :=
  if r.status = 200 then
    match jsGet r.data "success" with
    | .error e => .error e
    | .ok succ =>
      if succ.truthy then .ok (r.data, self)
      else .ok (.undefined, self)
  else .ok (.undefined, self)

/-- The `getTaskInfo`: promise settlement. -/
def Nas.getTaskInfo.resolve (self : Nas) (out : Outcome) : JVal × Nas :=
  runOp self (Nas.getTaskInfo.onThen self) out

/-- The `getTaskInfo` end to end against a transport oracle. -/
def Nas.getTaskInfo.run (self : Nas) (id : String) (additional : String)
    (t : Transport) : JVal × Nas :=
  Nas.getTaskInfo.resolve self (t (Nas.getTaskInfo.config self id additional))

/-- The `createTask(uri)`: request config. -/
def Nas.createTask.config (self : Nas) (uri : String) : Config :=
  { baseURL := self._url.origin
    url := "/webapi/DownloadStation/task.cgi"
    params := [("_sid", self._sid), ("api", .str "SYNO.DownloadStation.Task"),
               ("version", .num 3), ("method", .str "create"),
               ("uri", .str uri)] }

/-- The `createTask`: the `.then` handler — on 200 return the whole body with no
success check; otherwise fall through to undefined. -/
def Nas.createTask.onThen (self : Nas) (r : Response) :
    Except String (JVal × Nas) :=
  if r.status = 200 then .ok (r.data, self)
  else .ok (.undefined, self)

/-- The `createTask`: promise settlement. -/
def Nas.createTask.resolve (self : Nas) (out : Outcome) : JVal × Nas :=
  runOp self (Nas.createTask.onThen self) out

/-- The `createTask` end to end against a transport oracle. -/
def Nas.createTask.run (self : Nas) (uri : String) (t : Transport) : JVal × Nas :=
  Nas.createTask.resolve self (t (Nas.createTask.config self uri))

/-- The `deleteTask(id, force_complete = false)`: request config. -/
def Nas.deleteTask.config (self : Nas) (id : String) (force_complete : Bool) :
    Config :=
  { baseURL := self._url.origin
    url := "/webapi/DownloadStation/task.cgi"
    params := [("_sid", self._sid), ("api", .str "SYNO.DownloadStation.Task"),
               ("version", .num 1), ("method", .str "delete"),
               ("id", .str id), ("force_complete", .bool force_complete)] }

/-- The `deleteTask`: the `.then` handler — same shape as `createTask`. -/
def Nas.deleteTask.onThen (self : Nas) (r : Response) :
    Except String (JVal × Nas) :=
  if r.status = 200 then .ok (r.data, self)
  else .ok (.undefined, self)

/-- The `deleteTask`: promise settlement. -/
def Nas.deleteTask.resolve (self : Nas) (out : Outcome) : JVal × Nas :=
  runOp self (Nas.deleteTask.onThen self) out

/-- The `deleteTask` end to end against a transport oracle. -/
def Nas.deleteTask.run (self : Nas) (id : String) (force_complete : Bool)
    (t : Transport) : JVal × Nas :=
  Nas.deleteTask.resolve self (t (Nas.deleteTask.config self id force_complete))

/-- The `pauseTask(taskId)`: request config. -/
def Nas.pauseTask.config (self : Nas) (taskId : String) : Config :=
  { baseURL := self._url.origin
    url := "/webapi/DownloadStation/task.cgi"
    params := [("_sid", self._sid), ("api", .str "SYNO.DownloadStation.Task"),
               ("version", .num 1), ("method", .str "pause"),
               ("id", .str taskId)] }

/-- The `pauseTask`: the `.then` handler — same shape as `createTask`. -/
def Nas.pauseTask.onThen (self : Nas) (r : Response) :
    Except String (JVal × Nas) :=
  if r.status = 200 then .ok (r.data, self)
  else .ok (.undefined, self)

/-- The `pauseTask`: promise settlement. -/
def Nas.pauseTask.resolve (self : Nas) (out : Outcome) : JVal × Nas :=
  runOp self (Nas.pauseTask.onThen self) out

/-- The `pauseTask` end to end against a transport oracle. -/
def Nas.pauseTask.run (self : Nas) (taskId : String) (t : Transport) :
    JVal × Nas :=
  Nas.pauseTask.resolve self (t (Nas.pauseTask.config self taskId))

/-- The `resumeTask(taskId)`: request config. -/
def Nas.resumeTask.config (self : Nas) (taskId : String) : Config :=
  { baseURL := self._url.origin
    url := "/webapi/DownloadStation/task.cgi"
    params := [("_sid", self._sid), ("api", .str "SYNO.DownloadStation.Task"),
               ("version", .num 1), ("method", .str "resume"),
               ("id", .str taskId)] }

/-- The `resumeTask`: the `.then` handler — same shape as `createTask`. -/
def Nas.resumeTask.onThen (self : Nas) (r : Response) :
    Except String (JVal × Nas) :=
  if r.status = 200 then .ok (r.data, self)
  else .ok (.undefined, self)

/-- The `resumeTask`: promise settlement. -/
def Nas.resumeTask.resolve (self : Nas) (out : Outcome) : JVal × Nas :=
  runOp self (Nas.resumeTask.onThen self) out

/-- The `resumeTask` end to end against a transport oracle. -/
def Nas.resumeTask.run (self : Nas) (taskId : String) (t : Transport) :
    JVal × Nas :=
  Nas.resumeTask.resolve self (t (Nas.resumeTask.config self taskId))

/-- A transport oracle that rejects every request (simulated network error). -/
def rejectingTransport : Transport := fun _ => Outcome.rejected

/-- When `jsGet` succeeds, the non-throwing variant agrees with it. -/
theorem jsGetD_of_ok {base : JVal} {k : String} {v : JVal}
    (h : jsGet base k = Except.ok v) : jsGetD base k = v := by
  unfold jsGetD
  rw [h]

/-- Promise settlement keeps the instance state fixed whenever the then-handler
does so on every non-throwing branch. -/
theorem runOp_state (self : Nas) (f : Response → Except String (JVal × Nas))
    (out : Outcome) (hf : ∀ r v s, f r = Except.ok (v, s) → s = self) :
    (runOp self f out).2 = self := by
  obtain r | _ := out
  · rcases h : f r with e | ⟨v, s⟩
    · simp [runOp, h]
    · simp [runOp, h, hf r v s h]
  · rfl

/-- The `info` then-handler never changes the instance state. -/
theorem info_onThen_state (self : Nas) : ∀ (r : Response) (v : JVal) (s : Nas),
    Nas.info.onThen self r = Except.ok (v, s) → s = self := by
  intro r v s h
  unfold Nas.info.onThen at h
  repeat' split at h
  all_goals simp_all

/-- The `logout` then-handler never changes the instance state. -/
theorem logout_onThen_state (self : Nas) : ∀ (r : Response) (v : JVal) (s : Nas),
    Nas.logout.onThen self r = Except.ok (v, s) → s = self := by
  intro r v s h
  unfold Nas.logout.onThen at h
  repeat' split at h
  all_goals simp_all

/-- The `getTaskList` then-handler never changes the instance state. -/
theorem getTaskList_onThen_state (self : Nas) : ∀ (r : Response) (v : JVal) (s : Nas),
    Nas.getTaskList.onThen self r = Except.ok (v, s) → s = self := by
  intro r v s h
  unfold Nas.getTaskList.onThen at h
  repeat' split at h
  all_goals simp_all

/-- The `getTaskInfo` then-handler never changes the instance state. -/
theorem getTaskInfo_onThen_state (self : Nas) : ∀ (r : Response) (v : JVal) (s : Nas),
    Nas.getTaskInfo.onThen self r = Except.ok (v, s) → s = self := by
  intro r v s h
  unfold Nas.getTaskInfo.onThen at h
  repeat' split at h
  all_goals simp_all

/-- The `createTask` then-handler never changes the instance state. -/
theorem createTask_onThen_state (self : Nas) : ∀ (r : Response) (v : JVal) (s : Nas),
    Nas.createTask.onThen self r = Except.ok (v, s) → s = self := by
  intro r v s h
  unfold Nas.createTask.onThen at h
  split at h
  all_goals simp_all

/-- The `deleteTask` then-handler never changes the instance state. -/
theorem deleteTask_onThen_state (self : Nas) : ∀ (r : Response) (v : JVal) (s : Nas),
    Nas.deleteTask.onThen self r = Except.ok (v, s) → s = self := by
  intro r v s h
  unfold Nas.deleteTask.onThen at h
  split at h
  all_goals simp_all

/-- The `pauseTask` then-handler never changes the instance state. -/
theorem pauseTask_onThen_state (self : Nas) : ∀ (r : Response) (v : JVal) (s : Nas),
    Nas.pauseTask.onThen self r = Except.ok (v, s) → s = self := by
  intro r v s h
  unfold Nas.pauseTask.onThen at h
  split at h
  all_goals simp_all

/-- The `resumeTask` then-handler never changes the instance state. -/
theorem resumeTask_onThen_state (self : Nas) : ∀ (r : Response) (v : JVal) (s : Nas),
    Nas.resumeTask.onThen self r = Except.ok (v, s) → s = self := by
  intro r v s h
  unfold Nas.resumeTask.onThen at h
  split at h
  all_goals simp_all

/-- C1: for every offset, limit and additional value, `getTaskList` builds a
request whose parameter keys are exactly `_sid`, `api`, `version`, `method`,
`additional` — neither an `offset` nor a `limit` key — so both the request
issued and the resolved result are independent of the offset and limit
arguments. -/
theorem getTaskList_drops_offset_and_limit (self : Nas)
    (offset₁ limit₁ offset₂ limit₂ : Int) (additional : String) (t : Transport) :
    (Nas.getTaskList.config self offset₁ limit₁ additional).params.map Prod.fst =
      ["_sid", "api", "version", "method", "additional"] ∧
    (Nas.getTaskList.config self offset₁ limit₁ additional).params.lookup "offset" = none ∧
    (Nas.getTaskList.config self offset₁ limit₁ additional).params.lookup "limit" = none ∧
    Nas.getTaskList.config self offset₁ limit₁ additional =
      Nas.getTaskList.config self offset₂ limit₂ additional ∧
    Nas.getTaskList.run self offset₁ limit₁ additional t =
      Nas.getTaskList.run self offset₂ limit₂ additional t :=
  ⟨rfl, rfl, rfl, rfl, rfl⟩

/-- C2: `login` resolves `true` and stores the response's `data.sid` as the
session token exactly on HTTP 200 with a truthy success flag; every failure
branch (envelope failure, non-200 status, transport rejection) resolves
undefined and leaves the instance — in particular the stored session token —
unchanged. -/
theorem login_session_contract (self : Nas) (out : Outcome) :
    (∀ r succ d sid, out = Outcome.fulfilled r → r.status = 200 →
      jsGet r.data "success" = Except.ok succ → succ.truthy = true →
      jsGet r.data "data" = Except.ok d → jsGet d "sid" = Except.ok sid →
      Nas.login.resolve self out = (JVal.bool true, { self with _sid := sid })) ∧
    (∀ r, out = Outcome.fulfilled r →
      (r.status = 200 → (jsGetD r.data "success").truthy = false) →
      Nas.login.resolve self out = (JVal.undefined, self)) ∧
    (out = Outcome.rejected →
      Nas.login.resolve self out = (JVal.undefined, self)) := by
  refine ⟨?_, ?_, ?_⟩
  · rintro r succ d sid rfl h200 hs ht hd hsid
    simp [Nas.login.resolve, runOp, Nas.login.onThen, h200, hs, ht, hd, hsid]
  · rintro r rfl h
    by_cases h200 : r.status = 200
    · rcases hs : jsGet r.data "success" with e | succ
      · simp [Nas.login.resolve, runOp, Nas.login.onThen, h200, hs]
      · have ht : succ.truthy = false := by
          have h2 := h h200
          rwa [jsGetD_of_ok hs] at h2
        rcases he : jsGet r.data "error" with e₂ | ev
        · simp [Nas.login.resolve, runOp, Nas.login.onThen, h200, hs, ht, he]
        · rcases hc : jsGet ev "code" with e₃ | c
          · simp [Nas.login.resolve, runOp, Nas.login.onThen, h200, hs, ht, he, hc]
          · simp [Nas.login.resolve, runOp, Nas.login.onThen, h200, hs, ht, he, hc]
    · simp [Nas.login.resolve, runOp, Nas.login.onThen, h200]
  · rintro rfl
    rfl

/-- C3: every operation other than `login` — `info`, `logout`, `getTaskList`,
`getTaskInfo`, `createTask`, `deleteTask`, `pauseTask`, `resumeTask` — leaves
the whole instance state (stored endpoint URL and session token) unchanged on
every outcome; in particular `logout` does not clear the stored session token. -/
theorem nonlogin_ops_preserve_state (self : Nas) (out : Outcome) :
    (Nas.info.resolve self out).2 = self ∧
    (Nas.logout.resolve self out).2 = self ∧
    (Nas.getTaskList.resolve self out).2 = self ∧
    (Nas.getTaskInfo.resolve self out).2 = self ∧
    (Nas.createTask.resolve self out).2 = self ∧
    (Nas.deleteTask.resolve self out).2 = self ∧
    (Nas.pauseTask.resolve self out).2 = self ∧
    (Nas.resumeTask.resolve self out).2 = self ∧
    ((Nas.logout.resolve self out).2)._sid = self._sid := by
  refine ⟨?_, ?_, ?_, ?_, ?_, ?_, ?_, ?_, ?_⟩
  · exact runOp_state self _ out (info_onThen_state self)
  · exact runOp_state self _ out (logout_onThen_state self)
  · exact runOp_state self _ out (getTaskList_onThen_state self)
  · exact runOp_state self _ out (getTaskInfo_onThen_state self)
  · exact runOp_state self _ out (createTask_onThen_state self)
  · exact runOp_state self _ out (deleteTask_onThen_state self)
  · exact runOp_state self _ out (pauseTask_onThen_state self)
  · exact runOp_state self _ out (resumeTask_onThen_state self)
  · exact congrArg Nas._sid (runOp_state self _ out (logout_onThen_state self))

/-- C4: on HTTP 200 with a truthy success flag, `getTaskList` resolves to
exactly the envelope's `data.tasks` value, unmodified; on HTTP 200 with a falsy
success flag it resolves undefined. -/
theorem getTaskList_result_contract (self : Nas) (out : Outcome) :
    (∀ r succ d tasks, out = Outcome.fulfilled r → r.status = 200 →
      jsGet r.data "success" = Except.ok succ → succ.truthy = true →
      jsGet r.data "data" = Except.ok d → jsGet d "tasks" = Except.ok tasks →
      Nas.getTaskList.resolve self out = (tasks, self)) ∧
    (∀ r succ, out = Outcome.fulfilled r → r.status = 200 →
      jsGet r.data "success" = Except.ok succ → succ.truthy = false →
      Nas.getTaskList.resolve self out = (JVal.undefined, self)) := by
  constructor
  · rintro r succ d tasks rfl h200 hs ht hd htk
    simp [Nas.getTaskList.resolve, runOp, Nas.getTaskList.onThen, h200, hs, ht, hd, htk]
  · rintro r succ rfl h200 hs ht
    simp [Nas.getTaskList.resolve, runOp, Nas.getTaskList.onThen, h200, hs, ht]

/-- C5: on HTTP 200 with a truthy success flag, `getTaskInfo` resolves to the
full envelope object (`response.data` itself, success flag included); on
envelope failure, non-200 status, or transport rejection it resolves
undefined. -/
theorem getTaskInfo_result_contract (self : Nas) (out : Outcome) :
    (∀ r succ, out = Outcome.fulfilled r → r.status = 200 →
      jsGet r.data "success" = Except.ok succ → succ.truthy = true →
      Nas.getTaskInfo.resolve self out = (r.data, self)) ∧
    (∀ r, out = Outcome.fulfilled r →
      (r.status = 200 → (jsGetD r.data "success").truthy = false) →
      Nas.getTaskInfo.resolve self out = (JVal.undefined, self)) ∧
    (out = Outcome.rejected →
      Nas.getTaskInfo.resolve self out = (JVal.undefined, self)) := by
  refine ⟨?_, ?_, ?_⟩
  · rintro r succ rfl h200 hs ht
    simp [Nas.getTaskInfo.resolve, runOp, Nas.getTaskInfo.onThen, h200, hs, ht]
  · rintro r rfl h
    by_cases h200 : r.status = 200
    · rcases hs : jsGet r.data "success" with e | succ
      · simp [Nas.getTaskInfo.resolve, runOp, Nas.getTaskInfo.onThen, h200, hs]
      · have ht : succ.truthy = false := by
          have h2 := h h200
          rwa [jsGetD_of_ok hs] at h2
        simp [Nas.getTaskInfo.resolve, runOp, Nas.getTaskInfo.onThen, h200, hs, ht]
    · simp [Nas.getTaskInfo.resolve, runOp, Nas.getTaskInfo.onThen, h200]
  · rintro rfl
    rfl

/-- C6: on any HTTP 200 response, `createTask`, `deleteTask`, `pauseTask` and
`resumeTask` each resolve to the full response body verbatim whether the
envelope's success flag is true or false; on non-200 status or transport
rejection each resolves undefined. -/
theorem mutation_ops_return_body (self : Nas) (out : Outcome) :
    (∀ r, out = Outcome.fulfilled r → r.status = 200 →
      Nas.createTask.resolve self out = (r.data, self) ∧
      Nas.deleteTask.resolve self out = (r.data, self) ∧
      Nas.pauseTask.resolve self out = (r.data, self) ∧
      Nas.resumeTask.resolve self out = (r.data, self)) ∧
    (∀ r, out = Outcome.fulfilled r → r.status ≠ 200 →
      Nas.createTask.resolve self out = (JVal.undefined, self) ∧
      Nas.deleteTask.resolve self out = (JVal.undefined, self) ∧
      Nas.pauseTask.resolve self out = (JVal.undefined, self) ∧
      Nas.resumeTask.resolve self out = (JVal.undefined, self)) ∧
    (out = Outcome.rejected →
      Nas.createTask.resolve self out = (JVal.undefined, self) ∧
      Nas.deleteTask.resolve self out = (JVal.undefined, self) ∧
      Nas.pauseTask.resolve self out = (JVal.undefined, self) ∧
      Nas.resumeTask.resolve self out = (JVal.undefined, self)) := by
  refine ⟨?_, ?_, ?_⟩
  · rintro r rfl h200
    refine ⟨?_, ?_, ?_, ?_⟩ <;>
      simp [Nas.createTask.resolve, Nas.deleteTask.resolve, Nas.pauseTask.resolve,
            Nas.resumeTask.resolve, runOp, Nas.createTask.onThen, Nas.deleteTask.onThen,
            Nas.pauseTask.onThen, Nas.resumeTask.onThen, h200]
  · rintro r rfl h200
    refine ⟨?_, ?_, ?_, ?_⟩ <;>
      simp [Nas.createTask.resolve, Nas.deleteTask.resolve, Nas.pauseTask.resolve,
            Nas.resumeTask.resolve, runOp, Nas.createTask.onThen, Nas.deleteTask.onThen,
            Nas.pauseTask.onThen, Nas.resumeTask.onThen, h200]
  · rintro rfl
    exact ⟨rfl, rfl, rfl, rfl⟩

/-- C7: a transport-level rejection makes every operation resolve to undefined
(the catch-handler only logs), with the instance state unchanged; no failure is
surfaced as an error value to the caller. -/
theorem transport_rejection_contract (self : Nas)
    (nas_username nas_password id uri taskId additional : String)
    (offset limit : Int) (force_complete : Bool) :
    Nas.info.run self rejectingTransport = (JVal.undefined, self) ∧
    Nas.login.run self nas_username nas_password rejectingTransport = (JVal.undefined, self) ∧
    Nas.logout.run self rejectingTransport = (JVal.undefined, self) ∧
    Nas.getTaskList.run self offset limit additional rejectingTransport = (JVal.undefined, self) ∧
    Nas.getTaskInfo.run self id additional rejectingTransport = (JVal.undefined, self) ∧
    Nas.createTask.run self uri rejectingTransport = (JVal.undefined, self) ∧
    Nas.deleteTask.run self id force_complete rejectingTransport = (JVal.undefined, self) ∧
    Nas.pauseTask.run self taskId rejectingTransport = (JVal.undefined, self) ∧
    Nas.resumeTask.run self taskId rejectingTransport = (JVal.undefined, self) :=
  ⟨rfl, rfl, rfl, rfl, rfl, rfl, rfl, rfl, rfl⟩

/-- C8 (counterexample): constructing with the malformed URL string
`"notaurl"` does not yield a client at all — `new URL` throws an Invalid URL
error, which the constructor does not catch — so no client with the default
origin results. -/
theorem construct_malformed_string_counterexample :
    Nas.construct (CtorArg.str "notaurl") = Except.error "Invalid URL" := rfl

/-- C8 (amended): constructing with no argument — or with any value that is
neither a string nor a URL instance — yields a client whose stored origin is
the fixed default `https://localhost:5001` and whose session token is the
empty string; a URL instance is stored as given; but a malformed URL string
makes the constructor throw rather than fall back to the default. -/
theorem construct_fallback_amended :
    Nas.construct CtorArg.other =
      Except.ok ⟨⟨"https", "localhost", "5001"⟩, JVal.str ""⟩ ∧
    (∀ u : JsUrl, Nas.construct (CtorArg.urlObj u) = Except.ok ⟨u, JVal.str ""⟩) ∧
    ∀ s : String, parseURL s = none →
      Nas.construct (CtorArg.str s) = Except.error "Invalid URL" := by
  refine ⟨rfl, fun u => rfl, fun s h => ?_⟩
  simp only [Nas.construct]
  rw [h]

/-- C8 witness: the amended claim at the concrete malformed string `"notaurl"`. -/
theorem construct_fallback_amended_witness :
    parseURL "notaurl" = none ∧
    Nas.construct (CtorArg.str "notaurl") = Except.error "Invalid URL" :=
  ⟨rfl, construct_fallback_amended.2.2 "notaurl" rfl⟩

/-- C9: for every URL string accepted by `new URL`, the constructed client's
`host`, `portocol` (the source's spelling of the protocol getter), `hostname`
and `port` accessors return exactly the corresponding components of the parsed
URL; they are pure projections of the stored `_url`. -/
theorem url_accessors_contract (s : String) (u : JsUrl) (n : Nas)
    (h1 : parseURL s = some u)
    (h2 : Nas.construct (CtorArg.str s) = Except.ok n) :
    n.host = u.host ∧ n.portocol = u.protocol ∧
    n.hostname = u.hostname ∧ n.port = u.port := by
  have hc : Nas.construct (CtorArg.str s) = Except.ok ⟨u, JVal.str ""⟩ := by
    simp only [Nas.construct]
    rw [h1]
  rw [hc] at h2
  injection h2 with h3
  subst h3
  exact ⟨rfl, rfl, rfl, rfl⟩

/-- The URL record used by the C9 witness. -/
def urlW : JsUrl := ⟨"https", "192.168.1.241", "5001"⟩

/-- C9 witness: the accessor contract at the concrete URL string
`"https://192.168.1.241:5001"`. -/
theorem url_accessors_contract_witness :
    parseURL "https://192.168.1.241:5001" = some urlW ∧
    Nas.construct (CtorArg.str "https://192.168.1.241:5001") =
      Except.ok ⟨urlW, JVal.str ""⟩ ∧
    ((⟨urlW, JVal.str ""⟩ : Nas).host = "192.168.1.241:5001" ∧
     (⟨urlW, JVal.str ""⟩ : Nas).portocol = "https:" ∧
     (⟨urlW, JVal.str ""⟩ : Nas).hostname = "192.168.1.241" ∧
     (⟨urlW, JVal.str ""⟩ : Nas).port = "5001") :=
  ⟨rfl, rfl,
   url_accessors_contract "https://192.168.1.241:5001" urlW ⟨urlW, JVal.str ""⟩ rfl rfl⟩

/-- C10: every task operation places the instance's current session token as
the `_sid` request parameter (whatever that token is — the empty string before
any successful login), while the `logout` request carries no `_sid` parameter
at all. -/
theorem sid_parameter_contract (self : Nas) (offset limit : Int)
    (additional id uri taskId : String) (force_complete : Bool) :
    (Nas.getTaskList.config self offset limit additional).params.lookup "_sid" =
      some self._sid ∧
    (Nas.getTaskInfo.config self id additional).params.lookup "_sid" =
      some self._sid ∧
    (Nas.createTask.config self uri).params.lookup "_sid" = some self._sid ∧
    (Nas.deleteTask.config self id force_complete).params.lookup "_sid" =
      some self._sid ∧
    (Nas.pauseTask.config self taskId).params.lookup "_sid" = some self._sid ∧
    (Nas.resumeTask.config self taskId).params.lookup "_sid" = some self._sid ∧
    (Nas.logout.config self).params.lookup "_sid" = none :=
  ⟨rfl, rfl, rfl, rfl, rfl, rfl, rfl⟩

/-- A sample client instance for the concrete witnesses: the default endpoint
with the initial empty session token. -/
def nasW : Nas := ⟨⟨"https", "localhost", "5001"⟩, JVal.str ""⟩

/-- A sample task array for the list witnesses. -/
def tasksW : JVal := JVal.arr [JVal.obj [("id", JVal.str "dbid_100")]]

/-- A successful list envelope holding `tasksW`. -/
def listBodyW : JVal :=
  JVal.obj [("success", JVal.bool true), ("data", JVal.obj [("tasks", tasksW)])]

/-- A successful login envelope carrying a session id. -/
def loginBodyW : JVal :=
  JVal.obj [("success", JVal.bool true),
            ("data", JVal.obj [("sid", JVal.str "sid-123")])]

/-- A failure envelope with error code 400. -/
def failBodyW : JVal :=
  JVal.obj [("success", JVal.bool false),
            ("error", JVal.obj [("code", JVal.num 400)])]

/-- A successful getinfo envelope (returned whole by `getTaskInfo`). -/
def infoEnvW : JVal :=
  JVal.obj [("success", JVal.bool true),
            ("data", JVal.obj [("size", JVal.num 1)])]

/-- C2 witness: login against concrete stubbed responses — success stores the
sid and resolves true; envelope failure (code 400), non-200 status and
transport rejection resolve undefined with the token unchanged. -/
theorem login_session_contract_witness :
    Nas.login.resolve nasW (Outcome.fulfilled ⟨200, loginBodyW⟩) =
      (JVal.bool true, { nasW with _sid := JVal.str "sid-123" }) ∧
    Nas.login.resolve nasW (Outcome.fulfilled ⟨200, failBodyW⟩) =
      (JVal.undefined, nasW) ∧
    Nas.login.resolve nasW (Outcome.fulfilled ⟨500, loginBodyW⟩) =
      (JVal.undefined, nasW) ∧
    Nas.login.resolve nasW Outcome.rejected = (JVal.undefined, nasW) :=
  ⟨(login_session_contract nasW (Outcome.fulfilled ⟨200, loginBodyW⟩)).1
      ⟨200, loginBodyW⟩ (JVal.bool true) (JVal.obj [("sid", JVal.str "sid-123")])
      (JVal.str "sid-123") rfl rfl rfl rfl rfl rfl,
   (login_session_contract nasW (Outcome.fulfilled ⟨200, failBodyW⟩)).2.1
      ⟨200, failBodyW⟩ rfl (fun _ => rfl),
   (login_session_contract nasW (Outcome.fulfilled ⟨500, loginBodyW⟩)).2.1
      ⟨500, loginBodyW⟩ rfl (fun h => absurd h (by decide)),
   (login_session_contract nasW Outcome.rejected).2.2 rfl⟩

/-- C4 witness: `getTaskList` at a concrete success envelope returns exactly
the stubbed `data.tasks` array; at a concrete failure envelope it resolves
undefined. -/
theorem getTaskList_result_contract_witness :
    Nas.getTaskList.resolve nasW (Outcome.fulfilled ⟨200, listBodyW⟩) =
      (tasksW, nasW) ∧
    Nas.getTaskList.resolve nasW (Outcome.fulfilled ⟨200, failBodyW⟩) =
      (JVal.undefined, nasW) :=
  ⟨(getTaskList_result_contract nasW (Outcome.fulfilled ⟨200, listBodyW⟩)).1
      ⟨200, listBodyW⟩ (JVal.bool true) (JVal.obj [("tasks", tasksW)]) tasksW
      rfl rfl rfl rfl rfl rfl,
   (getTaskList_result_contract nasW (Outcome.fulfilled ⟨200, failBodyW⟩)).2
      ⟨200, failBodyW⟩ (JVal.bool false) rfl rfl rfl rfl⟩

/-- C5 witness: `getTaskInfo` at a concrete success envelope returns the whole
envelope; failure envelope, 404 status and transport rejection resolve
undefined. -/
theorem getTaskInfo_result_contract_witness :
    Nas.getTaskInfo.resolve nasW (Outcome.fulfilled ⟨200, infoEnvW⟩) =
      (infoEnvW, nasW) ∧
    Nas.getTaskInfo.resolve nasW (Outcome.fulfilled ⟨200, failBodyW⟩) =
      (JVal.undefined, nasW) ∧
    Nas.getTaskInfo.resolve nasW (Outcome.fulfilled ⟨404, infoEnvW⟩) =
      (JVal.undefined, nasW) ∧
    Nas.getTaskInfo.resolve nasW Outcome.rejected = (JVal.undefined, nasW) :=
  ⟨(getTaskInfo_result_contract nasW (Outcome.fulfilled ⟨200, infoEnvW⟩)).1
      ⟨200, infoEnvW⟩ (JVal.bool true) rfl rfl rfl rfl,
   (getTaskInfo_result_contract nasW (Outcome.fulfilled ⟨200, failBodyW⟩)).2.1
      ⟨200, failBodyW⟩ rfl (fun _ => rfl),
   (getTaskInfo_result_contract nasW (Outcome.fulfilled ⟨404, infoEnvW⟩)).2.1
      ⟨404, infoEnvW⟩ rfl (fun h => absurd h (by decide)),
   (getTaskInfo_result_contract nasW Outcome.rejected).2.2 rfl⟩

/-- C6 witness: the four mutating task operations return a concrete
success-false body verbatim on HTTP 200, and undefined on a 500 status and on
transport rejection. -/
theorem mutation_ops_return_body_witness :
    Nas.createTask.resolve nasW (Outcome.fulfilled ⟨200, failBodyW⟩) =
      (failBodyW, nasW) ∧
    Nas.deleteTask.resolve nasW (Outcome.fulfilled ⟨200, failBodyW⟩) =
      (failBodyW, nasW) ∧
    Nas.pauseTask.resolve nasW (Outcome.fulfilled ⟨200, failBodyW⟩) =
      (failBodyW, nasW) ∧
    Nas.resumeTask.resolve nasW (Outcome.fulfilled ⟨200, failBodyW⟩) =
      (failBodyW, nasW) ∧
    Nas.createTask.resolve nasW (Outcome.fulfilled ⟨500, failBodyW⟩) =
      (JVal.undefined, nasW) ∧
    Nas.createTask.resolve nasW Outcome.rejected = (JVal.undefined, nasW) := by
  have h1 := (mutation_ops_return_body nasW (Outcome.fulfilled ⟨200, failBodyW⟩)).1
      ⟨200, failBodyW⟩ rfl rfl
  have h2 := (mutation_ops_return_body nasW (Outcome.fulfilled ⟨500, failBodyW⟩)).2.1
      ⟨500, failBodyW⟩ rfl (by decide)
  have h3 := (mutation_ops_return_body nasW Outcome.rejected).2.2 rfl
  exact ⟨h1.1, h1.2.1, h1.2.2.1, h1.2.2.2, h2.1, h3.1⟩
